import Mathlib

/-!
# landing-page: a tiny web server that serves a directory's contents

A shallow embedding of `src/landing-page/main.go`.

* `get_with_default` is embedded as a pure function of the process environment.
* `main` is embedded as a function of the process environment and of the
  behaviour of the one blocking call it makes (`http.ListenAndServe`).  It
  returns the values of its local variables, the sequence of observable
  actions it performed (in program order) and the way the run ends.

The functions of Go's standard library that `main` calls are not part of the
program.  The environment lookup and the result of the listen call are inputs
of the embedding; the request handler that `main` builds is kept as the
expression that builds it.  The way the listen call reads the address it is
given (`net.SplitHostPort`, then the port number) follows package `net`.
-/

namespace LandingPage

/-! ## The process environment -/

/-- The process environment: every variable name is either unset (`none`) or
set to a string, which may be empty. -/
abbrev Environ := String → Option String

/-- The call `os.Getenv(key)`: the value of the variable, and the empty string
when the variable is not set. -/
def Getenv (env : Environ) (key : String) : String :=
  match env key with
  | some v => v
  | none => ""

/-- The function `get_with_default(envstr, def)` of `main.go`, lines 10-16. -/
def get_with_default (env : Environ) (envstr def_ : String) : String :=
  let t := Getenv env envstr
  if t != "" then
    t
  else
    def_

/-! ## Values and actions of `main` -/

/-- A Go `error` value, seen through its `Error()` method. -/
structure GoError where
  /-- The text returned by `err.Error()`. -/
  Error : String
  deriving DecidableEq, Repr

/-- The request handlers `main` builds, as the expressions that build them. -/
inductive Handler where
  /-- The value `http.FileServer(http.Dir(root))`. -/
  | FileServer (root : String)
  /-- The value `http.StripPrefix(pre, h)`. -/
  | StripPrefix (pre : String) (h : Handler)
  /-- The function literal `func(w, r) { h.ServeHTTP(w, r) }`. -/
  | ServeHTTP (h : Handler)
  deriving DecidableEq, Repr

/-- The observable actions of `main`. -/
inductive Action where
  /-- The call `http.HandleFunc(pattern, h)`: a route on the default mux. -/
  | HandleFunc (pattern : String) (h : Handler)
  /-- Bytes written to standard output. -/
  | Stdout (text : String)
  /-- The call `http.ListenAndServe(addr, nil)`. -/
  | ListenAndServe (addr : String)
  deriving DecidableEq, Repr

/-- The call `fmt.Println(s)`: `s` and a newline go to standard output. -/
def Println (s : String) : Action :=
  Action.Stdout (s ++ "\n")

/-- What the call `http.ListenAndServe(addr, nil)` does: it keeps serving and
never comes back, or it comes back with an `error` value (`none` is `nil`). -/
inductive ListenResult where
  /-- The call never returns. -/
  | serving
  /-- The call returns `err`. -/
  | returned (err : Option GoError)
  deriving DecidableEq, Repr

/-- The ways a run of `main` can end. -/
inductive Outcome where
  /-- The run stays inside `http.ListenAndServe` for ever. -/
  | servesForever
  /-- The run reaches `select {}`, which never completes. -/
  | blocksForever
  /-- The run ends in `panic(msg)`. -/
  | panicked (msg : String)
  /-- The function `main` returns normally (exit status 0). -/
  | exited
  deriving DecidableEq, Repr

/-- A run of `main`: its local variables, its actions in program order and
its end. -/
structure Run where
  /-- The local variable `port`. -/
  port : String
  /-- The local variable `content_dir`. -/
  content_dir : String
  /-- The local variable `fs`. -/
  fs : Handler
  /-- The actions performed, first to last. -/
  trace : List Action
  /-- The way the run ends. -/
  outcome : Outcome
  deriving DecidableEq, Repr

/-- The function `main` of `main.go`, lines 18-31.  `listen` gives the
behaviour of `http.ListenAndServe` at the address it is called with. -/
def main (env : Environ) (listen : String → ListenResult) : Run :=
  let port := get_with_default env "HTTP_PORT" "8080"
  let content_dir := get_with_default env "HTTP_CONTENT_DIR" "/www"
  let fs := Handler.StripPrefix "/" (Handler.FileServer content_dir)
  let t1 := [Action.HandleFunc "/" (Handler.ServeHTTP fs)]
  let t2 := t1 ++ [Println ("Server started on port " ++ port ++ ".")]
  let t3 := t2 ++ [Action.ListenAndServe (":" ++ port)]
  match listen (":" ++ port) with
  | ListenResult.serving =>
    { port := port, content_dir := content_dir, fs := fs, trace := t3,
      outcome := Outcome.servesForever }
  | ListenResult.returned (some err) =>
    { port := port, content_dir := content_dir, fs := fs, trace := t3,
      outcome := Outcome.panicked ("ListenAndServe: " ++ err.Error) }
  | ListenResult.returned none =>
    { port := port, content_dir := content_dir, fs := fs, trace := t3,
      outcome := Outcome.blocksForever }

/-! ## Observations on a trace -/

/-- Everything written to standard output, in order. -/
def stdoutOf : List Action → String
  | [] => ""
  | Action.Stdout s :: rest => s ++ stdoutOf rest
  | _ :: rest => stdoutOf rest

/-- Everything written to standard output before the first listen call. -/
def stdoutBeforeListen : List Action → String
  | [] => ""
  | Action.ListenAndServe _ :: _ => ""
  | Action.Stdout s :: rest => s ++ stdoutBeforeListen rest
  | _ :: rest => stdoutBeforeListen rest

/-- The addresses of the listen calls, in order. -/
def listenAddrs : List Action → List String
  | [] => []
  | Action.ListenAndServe a :: rest => a :: listenAddrs rest
  | _ :: rest => listenAddrs rest

/-! ## How the listen call reads its address -/

/-- The error `*net.AddrError` of the address functions. -/
structure AddrError where
  /-- The field `Err`: what is wrong. -/
  Err : String
  /-- The field `Addr`: the text it is wrong about. -/
  Addr : String
  deriving DecidableEq, Repr

/-- The index of the last `b` in `s`; `none` stands for Go's `-1`. -/
def last : List Char → Char → Option Nat
  | [], _ => none
  | x :: xs, b =>
    match last xs b with
    | some i => some (i + 1)
    | none => if x = b then some 0 else none

/-- The index of the first `c` in `s`; `none` stands for Go's `-1`. -/
def IndexByteString : List Char → Char → Option Nat
  | [], _ => none
  | x :: xs, c =>
    if x = c then some 0
    else
      match IndexByteString xs c with
      | some i => some (i + 1)
      | none => none

/-- The end of `net.SplitHostPort`, common to both forms of host: no bracket
may stand from `j` (an opening one) or from `k` (a closing one) on, and the
port is what follows the last colon, at index `i`. -/
def splitTail (hostport : String) (host : List Char) (i j k : Nat) :
    Except AddrError (String × String) :=
  if (IndexByteString (hostport.data.drop j) '[').isSome then
    Except.error { Err := "unexpected '[' in address", Addr := hostport }
  else if (IndexByteString (hostport.data.drop k) ']').isSome then
    Except.error { Err := "unexpected ']' in address", Addr := hostport }
  else
    Except.ok (String.mk host, String.mk (hostport.data.drop (i + 1)))

/-- The call `net.SplitHostPort(hostport)`, by which the listen call reads its
address: the port starts after the last colon; a host in square brackets ends
just before that colon; any other host holds no colon. -/
def SplitHostPort (hostport : String) : Except AddrError (String × String) :=
  match last hostport.data ':' with
  | none => Except.error { Err := "missing port in address", Addr := hostport }
  | some i =>
    if hostport.data.head? = some '[' then
      match IndexByteString hostport.data ']' with
      | none => Except.error { Err := "missing ']' in address", Addr := hostport }
      | some end_ =>
        if end_ + 1 = hostport.data.length then
          Except.error { Err := "missing port in address", Addr := hostport }
        else if end_ + 1 = i then
          splitTail hostport ((hostport.data.take end_).drop 1) i 1 (end_ + 1)
        else if hostport.data[end_ + 1]? = some ':' then
          Except.error { Err := "too many colons in address", Addr := hostport }
        else
          Except.error { Err := "missing port in address", Addr := hostport }
    else
      if (IndexByteString (hostport.data.take i) ':').isSome then
        Except.error { Err := "too many colons in address", Addr := hostport }
      else
        splitTail hostport (hostport.data.take i) i 0 0

/-- The constant `cutoff` of `parsePort`. -/
def cutoff : Nat := 2 ^ 30

/-- The constant `max` of `parsePort`, the largest `uint32`. -/
def maxUint32 : Nat := 2 ^ 32 - 1

/-- The loop of `parsePort` over the characters of the service, with `n` the
`uint32` read so far.  `none`: a character that is no decimal digit, the
service is a name and needs a lookup. -/
def parsePortLoop : List Char → Nat → Option Nat
  | [], n => some n
  | d :: rest, n =>
    if '0' ≤ d ∧ d ≤ '9' then
      if n ≥ cutoff then
        some maxUint32
      else
        let n1 := (n * 10) % 2 ^ 32
        let nn := (n1 + (d.toNat - '0'.toNat)) % 2 ^ 32
        if nn < n1 ∨ nn > maxUint32 then
          some maxUint32
        else
          parsePortLoop rest nn
    else
      none

/-- The function `parsePort(service)` of package `net`: the service as a
decimal number with an optional sign, kept within 2^30, and whether it is a
name that needs a lookup instead. -/
def parsePort (service : String) : Int × Bool :=
  match service.data with
  | [] => (0, false)
  | c :: cs =>
    let neg := decide (c = '-')
    let digits := if c = '+' then cs else if c = '-' then cs else c :: cs
    match parsePortLoop digits 0 with
    | none => (0, true)
    | some n =>
      let port : Int :=
        if ¬ neg ∧ n ≥ cutoff then (cutoff : Int) - 1
        else if neg ∧ n > cutoff then (cutoff : Int)
        else (n : Int)
      (if neg then -port else port, false)

/-- The call `LookupPort(network, service)` of package `net`: a number is
taken as it is, a name is looked up in the services known to the system
(`lookupPort`), and the port must lie in 0..65535. -/
def LookupPort (lookupPort : String → Except AddrError Int) (service : String) :
    Except AddrError Int :=
  match parsePort service with
  | (port, false) =>
    if 0 > port ∨ port > 65535 then
      Except.error { Err := "invalid port", Addr := service }
    else
      Except.ok port
  | (_, true) =>
    match lookupPort service with
    | Except.error e => Except.error e
    | Except.ok port =>
      if 0 > port ∨ port > 65535 then
        Except.error { Err := "invalid port", Addr := service }
      else
        Except.ok port

/-- How the listen call reads its address: host and port text by
`net.SplitHostPort`, then the port number by `LookupPort`.  The empty host
stands for all local interfaces. -/
def internetAddr (lookupPort : String → Except AddrError Int) (addr : String) :
    Except AddrError (String × Int) :=
  match SplitHostPort addr with
  | Except.error e => Except.error e
  | Except.ok (host, port) =>
    match LookupPort lookupPort port with
    | Except.error e => Except.error e
    | Except.ok portnum => Except.ok (host, portnum)


/-- Whether `p` is made of decimal digits only. -/
def isDecimal (p : String) : Bool :=
  p.data.all (fun d => decide ('0' ≤ d ∧ d ≤ '9'))

/-- The number that the characters of `p` spell in base ten. -/
def decimalValue (p : String) : Nat :=
  p.data.foldl (fun n d => n * 10 + (d.toNat - '0'.toNat)) 0

/-- The targets of the listen calls of a run, as the listen call reads their
addresses: host and port number, or the error that rejects the address. -/
def listenTargets (lookupPort : String → Except AddrError Int) (r : Run) :
    List (Except AddrError (String × Int)) :=
  (listenAddrs r.trace).map (internetAddr lookupPort)

/-! ## Sample inputs -/

/-- The environment in which no variable is set. -/
def emptyEnv : Environ := fun _ => none

/-- An environment that sets `HTTP_PORT=9090` and `HTTP_CONTENT_DIR=` (empty). -/
def sampleEnv : Environ := fun k =>
  if k = "HTTP_PORT" then some "9090"
  else if k = "HTTP_CONTENT_DIR" then some ""
  else none

/-- A listen call that fails at once because the port is taken. -/
def portInUse : String → ListenResult := fun addr =>
  ListenResult.returned
    (some { Error := "listen tcp " ++ addr ++ ": bind: address already in use" })

/-- An environment that sets `HTTP_PORT=08080`. -/
def zeroPaddedEnv : Environ := fun k =>
  if k = "HTTP_PORT" then some "08080" else none

/-- An environment that sets `HTTP_PORT=80:90`. -/
def twoColonsEnv : Environ := fun k =>
  if k = "HTTP_PORT" then some "80:90" else none

/-- A listen call that binds its port and serves. -/
def binds : String → ListenResult := fun _ =>
  ListenResult.serving

/-- A listen call that rejects its address. -/
def rejects : String → ListenResult := fun addr =>
  ListenResult.returned
    (some { Error := "listen tcp: address " ++ addr ++ ": too many colons in address" })

/-- A system whose services file knows no service name. -/
def noServices : String → Except AddrError Int := fun service =>
  Except.error { Err := "unknown port", Addr := "tcp/" ++ service }

/-! ## Helper lemmas -/

theorem Getenv_some (env : Environ) (key v : String) (h : env key = some v) :
    Getenv env key = v := by
  simp [Getenv, h]

theorem Getenv_none (env : Environ) (key : String) (h : env key = none) :
    Getenv env key = "" := by
  simp [Getenv, h]

theorem get_with_default_of_ne (env : Environ) (envstr d : String)
    (h : Getenv env envstr ≠ "") : get_with_default env envstr d = Getenv env envstr := by
  simp [get_with_default, h]

theorem get_with_default_of_eq (env : Environ) (envstr d : String)
    (h : Getenv env envstr = "") : get_with_default env envstr d = d := by
  simp [get_with_default, h]

theorem main_port (env : Environ) (listen : String → ListenResult) :
    (main env listen).port = get_with_default env "HTTP_PORT" "8080" := by
  unfold main
  simp only []
  split <;> rfl

theorem main_content_dir (env : Environ) (listen : String → ListenResult) :
    (main env listen).content_dir = get_with_default env "HTTP_CONTENT_DIR" "/www" := by
  unfold main
  simp only []
  split <;> rfl

theorem main_trace (env : Environ) (listen : String → ListenResult) :
    (main env listen).trace =
      [Action.HandleFunc "/" (Handler.ServeHTTP
          (Handler.StripPrefix "/" (Handler.FileServer (main env listen).content_dir))),
       Println ("Server started on port " ++ (main env listen).port ++ "."),
       Action.ListenAndServe (":" ++ (main env listen).port)] := by
  rw [main_port, main_content_dir]
  unfold main
  simp only []
  split <;> rfl

theorem main_outcome (env : Environ) (listen : String → ListenResult) :
    (main env listen).outcome =
      match listen (":" ++ (main env listen).port) with
      | ListenResult.serving => Outcome.servesForever
      | ListenResult.returned (some err) =>
        Outcome.panicked ("ListenAndServe: " ++ err.Error)
      | ListenResult.returned none => Outcome.blocksForever := by
  rw [main_port]
  unfold main
  simp only []
  split <;> rfl

theorem colon_append_data (p : String) : (":" ++ p).data = ':' :: p.data := by
  rw [String.data_append]
  rfl

theorem IndexByteString_eq_none (s : List Char) (c : Char) :
    IndexByteString s c = none ↔ c ∉ s := by
  induction s with
  | nil => simp [IndexByteString]
  | cons x xs ih =>
    unfold IndexByteString
    by_cases hx : x = c
    · simp [hx]
    · have hx2 : ¬ c = x := fun h => hx h.symm
      cases hi : IndexByteString xs c with
      | none => simp [hx, hx2, ih.mp hi]
      | some i =>
        have : c ∈ xs := by
          by_contra hn
          rw [ih.mpr hn] at hi
          cases hi
        simp [hx, this]

theorem IndexByteString_isSome (s : List Char) (c : Char) :
    (IndexByteString s c).isSome = true ↔ c ∈ s := by
  rw [← not_iff_not, ← IndexByteString_eq_none]
  cases IndexByteString s c <;> simp

theorem last_eq_none (s : List Char) (b : Char) : last s b = none ↔ b ∉ s := by
  induction s with
  | nil => simp [last]
  | cons x xs ih =>
    unfold last
    cases hl : last xs b with
    | some i =>
      have : b ∈ xs := by
        by_contra hn
        rw [ih.mpr hn] at hl
        cases hl
      simp [this]
    | none =>
      have hn : b ∉ xs := ih.mp hl
      by_cases hx : x = b
      · simp [hx]
      · have hx2 : ¬ b = x := fun h => hx h.symm
        simp [hx, hx2, hn]

theorem SplitHostPort_colon (p : String) :
    SplitHostPort (":" ++ p) = Except.ok ("", p) ↔
      ':' ∉ p.data ∧ '[' ∉ p.data ∧ ']' ∉ p.data := by
  have hd : (":" ++ p).data = ':' :: p.data := colon_append_data p
  unfold SplitHostPort
  rw [hd]
  by_cases hc : ':' ∈ p.data
  · have hl : last p.data ':' ≠ none := fun h => (last_eq_none _ _).mp h hc
    cases hi : last p.data ':' with
    | none => exact absurd hi hl
    | some i =>
      simp [last, hi, IndexByteString, hc]
  · have hl : last p.data ':' = none := (last_eq_none _ _).mpr hc
    by_cases h1 : '[' ∈ p.data
    · obtain ⟨j, hj⟩ := Option.isSome_iff_exists.mp ((IndexByteString_isSome p.data '[').mpr h1)
      simp [last, hl, IndexByteString, splitTail, hd, h1, hj]
    · have e1 := (IndexByteString_eq_none p.data '[').mpr h1
      by_cases h2 : ']' ∈ p.data
      · obtain ⟨j, hj⟩ :=
          Option.isSome_iff_exists.mp ((IndexByteString_isSome p.data ']').mpr h2)
        simp [last, hl, IndexByteString, splitTail, hd, h2, hj, e1]
      · have e2 := (IndexByteString_eq_none p.data ']').mpr h2
        simp [last, hl, IndexByteString, splitTail, hd, hc, h1, h2, e1, e2]


theorem foldl_digits_ge (ds : List Char) (n : Nat) :
    n ≤ ds.foldl (fun n d => n * 10 + (d.toNat - '0'.toNat)) n := by
  induction ds generalizing n with
  | nil => simp
  | cons d rest ih =>
    simp only [List.foldl_cons]
    exact le_trans (by omega) (ih (n * 10 + (d.toNat - '0'.toNat)))

theorem parsePortLoop_digits (ds : List Char) (n : Nat)
    (hds : ∀ d ∈ ds, '0' ≤ d ∧ d ≤ '9')
    (hv : ds.foldl (fun n d => n * 10 + (d.toNat - '0'.toNat)) n < cutoff) :
    parsePortLoop ds n =
      some (ds.foldl (fun n d => n * 10 + (d.toNat - '0'.toNat)) n) := by
  induction ds generalizing n with
  | nil => simp [parsePortLoop]
  | cons d rest ih =>
    simp only [List.foldl_cons] at hv ⊢
    have hd : '0' ≤ d ∧ d ≤ '9' := hds d (List.mem_cons_self d rest)
    have hstep : n * 10 + (d.toNat - '0'.toNat) < cutoff :=
      lt_of_le_of_lt (foldl_digits_ge rest _) hv
    have hc : cutoff = 2 ^ 30 := rfl
    have hn : ¬ n ≥ cutoff := by omega
    have h1 : (n * 10) % 2 ^ 32 = n * 10 := Nat.mod_eq_of_lt (by omega)
    have h2 : (n * 10 + (d.toNat - '0'.toNat)) % 2 ^ 32 = n * 10 + (d.toNat - '0'.toNat) :=
      Nat.mod_eq_of_lt (by omega)
    have h3 : ¬ (n * 10 + (d.toNat - '0'.toNat) < n * 10 ∨
        n * 10 + (d.toNat - '0'.toNat) > maxUint32) := by
      have hm : maxUint32 = 2 ^ 32 - 1 := rfl
      omega
    unfold parsePortLoop
    rw [if_pos hd, if_neg hn]
    simp only [h1, h2]
    rw [if_neg h3]
    exact ih _ (fun c hc => hds c (List.mem_cons_of_mem d hc)) hv

theorem parsePort_decimal (p : String) (hne : p ≠ "") (hdec : isDecimal p = true)
    (hv : decimalValue p < cutoff) : parsePort p = ((decimalValue p : Int), false) := by
  have hds : ∀ d ∈ p.data, '0' ≤ d ∧ d ≤ '9' := by
    simpa [isDecimal] using hdec
  unfold parsePort
  cases hp : p.data with
  | nil => exact absurd (String.ext hp) hne
  | cons c cs =>
    have hc : '0' ≤ c ∧ c ≤ '9' := hds c (by rw [hp]; exact List.mem_cons_self c cs)
    have hplus : c ≠ '+' := by
      intro h
      rw [h] at hc
      exact absurd hc (by decide)
    have hminus : c ≠ '-' := by
      intro h
      rw [h] at hc
      exact absurd hc (by decide)
    have hloop := parsePortLoop_digits p.data 0 hds hv
    rw [hp] at hloop
    have hval : decimalValue p = (c :: cs).foldl (fun n d => n * 10 + (d.toNat - '0'.toNat)) 0 := by
      unfold decimalValue
      rw [hp]
    rw [hval] at hv ⊢
    generalize (c :: cs).foldl (fun n d => n * 10 + (d.toNat - '0'.toNat)) 0 = v at hv hloop ⊢
    have hn : ¬ v ≥ cutoff := by omega
    simp only [hplus, hminus, if_false, hloop, decide_False]
    simp [hn]

theorem LookupPort_decimal (lookupPort : String → Except AddrError Int) (p : String)
    (hne : p ≠ "") (hdec : isDecimal p = true) (hv : decimalValue p ≤ 65535) :
    LookupPort lookupPort p = Except.ok (decimalValue p : Int) := by
  have hc : cutoff = 2 ^ 30 := rfl
  unfold LookupPort
  rw [parsePort_decimal p hne hdec (by omega)]
  simp only []
  have : ¬ (0 > (decimalValue p : Int) ∨ (decimalValue p : Int) > 65535) := by omega
  rw [if_neg this]

theorem isDecimal_no_separator (p : String) (hdec : isDecimal p = true) :
    ':' ∉ p.data ∧ '[' ∉ p.data ∧ ']' ∉ p.data := by
  have hds : ∀ d ∈ p.data, '0' ≤ d ∧ d ≤ '9' := by
    simpa [isDecimal] using hdec
  refine ⟨?_, ?_, ?_⟩ <;> intro h <;> exact absurd (hds _ h) (by decide)

theorem internetAddr_decimal (lookupPort : String → Except AddrError Int) (p : String)
    (hne : p ≠ "") (hdec : isDecimal p = true) (hv : decimalValue p ≤ 65535) :
    internetAddr lookupPort (":" ++ p) = Except.ok ("", (decimalValue p : Int)) := by
  unfold internetAddr
  rw [(SplitHostPort_colon p).mpr (isDecimal_no_separator p hdec)]
  simp only []
  rw [LookupPort_decimal lookupPort p hne hdec hv]

theorem main_listenAddrs (env : Environ) (listen : String → ListenResult) :
    listenAddrs (main env listen).trace = [":" ++ (main env listen).port] := by
  rw [main_trace]
  simp [listenAddrs, Println]

/-! ## The configuration resolver -/

/-- C1: for every environment, variable name and default, `get_with_default`
returns the variable's value when the variable is set to a non-empty string,
and returns the default when the variable is unset or set to the empty
string. -/
theorem get_with_default_spec (env : Environ) (envstr d : String) :
    (∀ v : String, env envstr = some v → v ≠ "" → get_with_default env envstr d = v) ∧
    (env envstr = none ∨ env envstr = some "" → get_with_default env envstr d = d) := by
  constructor
  · intro v hv hne
    have hg : Getenv env envstr = v := Getenv_some env envstr v hv
    rw [get_with_default_of_ne env envstr d (by rw [hg]; exact hne), hg]
  · intro h
    apply get_with_default_of_eq
    rcases h with h | h
    · exact Getenv_none env envstr h
    · exact Getenv_some env envstr "" h

theorem get_with_default_spec_witness :
    (sampleEnv "HTTP_PORT" = some "9090" ∧ ("9090" : String) ≠ "" ∧
      get_with_default sampleEnv "HTTP_PORT" "8080" = "9090") ∧
    (sampleEnv "HTTP_CONTENT_DIR" = some "" ∧
      get_with_default sampleEnv "HTTP_CONTENT_DIR" "/www" = "/www") ∧
    (emptyEnv "HTTP_PORT" = none ∧ get_with_default emptyEnv "HTTP_PORT" "8080" = "8080") :=
  ⟨⟨by decide, by decide,
      (get_with_default_spec sampleEnv "HTTP_PORT" "8080").1 "9090" (by decide) (by decide)⟩,
   ⟨by decide,
      (get_with_default_spec sampleEnv "HTTP_CONTENT_DIR" "/www").2 (Or.inr (by decide))⟩,
   ⟨rfl, (get_with_default_spec emptyEnv "HTTP_PORT" "8080").2 (Or.inl rfl)⟩⟩

/-- C2: in every environment in which `HTTP_PORT` is unset or empty the port
resolved by `main` is exactly `8080`, and in every environment in which
`HTTP_CONTENT_DIR` is unset or empty the content root resolved by `main` is
exactly `/www`. -/
theorem main_default_substitution (env : Environ) (listen : String → ListenResult) :
    (env "HTTP_PORT" = none ∨ env "HTTP_PORT" = some "" →
      (main env listen).port = "8080") ∧
    (env "HTTP_CONTENT_DIR" = none ∨ env "HTTP_CONTENT_DIR" = some "" →
      (main env listen).content_dir = "/www") := by
  constructor
  · intro h
    rw [main_port]
    apply get_with_default_of_eq
    rcases h with h | h
    · exact Getenv_none env _ h
    · exact Getenv_some env _ "" h
  · intro h
    rw [main_content_dir]
    apply get_with_default_of_eq
    rcases h with h | h
    · exact Getenv_none env _ h
    · exact Getenv_some env _ "" h

theorem main_default_substitution_witness :
    (emptyEnv "HTTP_PORT" = none ∧ (main emptyEnv portInUse).port = "8080") ∧
    (sampleEnv "HTTP_CONTENT_DIR" = some "" ∧
      (main sampleEnv portInUse).content_dir = "/www") :=
  ⟨⟨rfl, (main_default_substitution emptyEnv portInUse).1 (Or.inl rfl)⟩,
   ⟨by decide, (main_default_substitution sampleEnv portInUse).2 (Or.inr (by decide))⟩⟩

/-! ## The server lifecycle -/

/-- C6 (as stated, refuted): with `HTTP_PORT=08080` the value `p` is not
`8080`, yet the one listen call of `main` is read as the empty host and port
number 8080, the same target as in the run with no variable set; and with
`HTTP_PORT=80:90` the address `main` passes has no host and port at all, it
is rejected for its colons. -/
theorem main_listen_address_counterexample :
    (zeroPaddedEnv "HTTP_PORT" = some "08080" ∧ ("08080" : String) ≠ "" ∧
      ("08080" : String) ≠ "8080" ∧
      listenAddrs (main zeroPaddedEnv binds).trace = [":08080"] ∧
      listenTargets noServices (main zeroPaddedEnv binds) = [Except.ok ("", 8080)] ∧
      listenTargets noServices (main emptyEnv binds) = [Except.ok ("", 8080)]) ∧
    (twoColonsEnv "HTTP_PORT" = some "80:90" ∧ ("80:90" : String) ≠ "" ∧
      listenAddrs (main twoColonsEnv rejects).trace = [":80:90"] ∧
      listenTargets noServices (main twoColonsEnv rejects) =
        [Except.error { Err := "too many colons in address", Addr := ":80:90" }]) :=
  ⟨⟨by decide, by decide, by decide, by decide, rfl, rfl⟩,
   ⟨by decide, by decide, by decide, rfl⟩⟩

/-- C6 (amended): for every non-empty value `p` of `HTTP_PORT`, `main` makes
exactly one listen call and its address is `":"` followed by `p`.  The listen
call reads that address as the empty host (all local interfaces) and the port
text `p` exactly when `p` holds none of `:`, `[` and `]`.  It reads the port
text as a number: when `p` is made of decimal digits and spells a number up
to 65535, the target is the empty host and that number, so it is port 8080
exactly when `p` spells 8080. -/
theorem main_listen_address (env : Environ) (listen : String → ListenResult)
    (lookupPort : String → Except AddrError Int) (p : String)
    (hset : env "HTTP_PORT" = some p) (hne : p ≠ "") :
    listenAddrs (main env listen).trace = [":" ++ p] ∧
    ((listenAddrs (main env listen).trace).map SplitHostPort = [Except.ok ("", p)] ↔
      ':' ∉ p.data ∧ '[' ∉ p.data ∧ ']' ∉ p.data) ∧
    (isDecimal p = true → decimalValue p ≤ 65535 →
      listenTargets lookupPort (main env listen) =
        [Except.ok ("", (decimalValue p : Int))] ∧
      (listenTargets lookupPort (main env listen) = [Except.ok ("", 8080)] ↔
        decimalValue p = 8080)) := by
  have hg : Getenv env "HTTP_PORT" = p := Getenv_some env _ p hset
  have hport : (main env listen).port = p := by
    rw [main_port, get_with_default_of_ne env _ _ (by rw [hg]; exact hne), hg]
  have haddrs : listenAddrs (main env listen).trace = [":" ++ p] := by
    rw [main_listenAddrs, hport]
  refine ⟨haddrs, ?_, ?_⟩
  · rw [haddrs]
    simp only [List.map_cons, List.map_nil, List.cons.injEq, and_true]
    exact SplitHostPort_colon p
  · intro hdec hv
    have htarget : listenTargets lookupPort (main env listen) =
        [Except.ok ("", (decimalValue p : Int))] := by
      unfold listenTargets
      rw [haddrs]
      simp only [List.map_cons, List.map_nil]
      rw [internetAddr_decimal lookupPort p hne hdec hv]
    refine ⟨htarget, ?_⟩
    rw [htarget]
    constructor
    · intro h
      have h1 : (Except.ok ("", (decimalValue p : Int)) : Except AddrError (String × Int)) =
          Except.ok ("", 8080) := List.head_eq_of_cons_eq h
      have h2 : (decimalValue p : Int) = 8080 := (Prod.mk.inj (Except.ok.inj h1)).2
      exact_mod_cast h2
    · intro h
      rw [h]
      rfl

theorem main_listen_address_witness :
    sampleEnv "HTTP_PORT" = some "9090" ∧ ("9090" : String) ≠ "" ∧
    isDecimal "9090" = true ∧ decimalValue "9090" ≤ 65535 ∧
    listenAddrs (main sampleEnv binds).trace = [":9090"] ∧
    listenTargets noServices (main sampleEnv binds) =
      [Except.ok ("", (decimalValue "9090" : Int))] :=
  ⟨by decide, by decide, by decide, by decide,
    (main_listen_address sampleEnv binds noServices "9090" (by decide) (by decide)).1,
    ((main_listen_address sampleEnv binds noServices "9090" (by decide) (by decide)).2.2
      (by decide) (by decide)).1⟩

/-- C7: whenever the listen call of `main` returns an error `e`, the run ends
in a panic whose message is `"ListenAndServe: "` followed by the text of `e`;
and no run of `main` ends by returning normally. -/
theorem main_listen_failure (env : Environ) (listen : String → ListenResult) :
    (∀ e : GoError, listen (":" ++ (main env listen).port) = ListenResult.returned (some e) →
      (main env listen).outcome = Outcome.panicked ("ListenAndServe: " ++ e.Error)) ∧
    (main env listen).outcome ≠ Outcome.exited := by
  constructor
  · intro e he
    rw [main_outcome, he]
  · rw [main_outcome]
    split <;> simp

theorem main_listen_failure_witness :
    portInUse (":" ++ (main emptyEnv portInUse).port) =
      ListenResult.returned
        (some { Error := "listen tcp :8080: bind: address already in use" }) ∧
    (main emptyEnv portInUse).outcome =
      Outcome.panicked
        "ListenAndServe: listen tcp :8080: bind: address already in use" :=
  ⟨by decide,
    (main_listen_failure emptyEnv portInUse).1
      { Error := "listen tcp :8080: bind: address already in use" } (by decide)⟩

/-- C8: in every run, with `p` the port `main` resolved, everything `main`
writes to standard output is the one line `Server started on port p.`, the
line is written before the listen call, and the listen address is built from
the same `p`. -/
theorem main_startup_line (env : Environ) (listen : String → ListenResult) :
    stdoutOf (main env listen).trace =
      "Server started on port " ++ (main env listen).port ++ ".\n" ∧
    stdoutBeforeListen (main env listen).trace =
      "Server started on port " ++ (main env listen).port ++ ".\n" ∧
    listenAddrs (main env listen).trace = [":" ++ (main env listen).port] := by
  rw [main_trace]
  refine ⟨?_, ?_, ?_⟩
  · simp [stdoutOf, Println, String.append_assoc]
  · simp [stdoutBeforeListen, Println, String.append_assoc]
  · simp [listenAddrs, Println]

/-- C10: called with a non-empty default, `get_with_default` never returns the
empty string, in any environment and for any variable name; so the port and
the content root that `main` resolves are non-empty in every run. -/
theorem get_with_default_nonempty (env : Environ) (listen : String → ListenResult) :
    (∀ envstr d : String, d ≠ "" → get_with_default env envstr d ≠ "") ∧
    (main env listen).port ≠ "" ∧ (main env listen).content_dir ≠ "" := by
  have key : ∀ envstr d : String, d ≠ "" → get_with_default env envstr d ≠ "" := by
    intro envstr d hd
    by_cases h : Getenv env envstr = ""
    · rw [get_with_default_of_eq env envstr d h]
      exact hd
    · rw [get_with_default_of_ne env envstr d h]
      exact h
  refine ⟨key, ?_, ?_⟩
  · rw [main_port]
    exact key _ _ (by decide)
  · rw [main_content_dir]
    exact key _ _ (by decide)

theorem get_with_default_nonempty_witness :
    ("/www" : String) ≠ "" ∧
    get_with_default sampleEnv "HTTP_CONTENT_DIR" "/www" ≠ "" ∧
    (main sampleEnv portInUse).port ≠ "" ∧
    (main sampleEnv portInUse).content_dir ≠ "" :=
  ⟨by decide,
    (get_with_default_nonempty sampleEnv portInUse).1 "HTTP_CONTENT_DIR" "/www" (by decide),
    (get_with_default_nonempty sampleEnv portInUse).2⟩

end LandingPage
